import Mathlib

/-!
Verification of the grading-decision core of the lab_grader_web repository.

Each Python module of `src/grading/` is shallowly embedded as executable Lean
definitions; `datetime` values are modelled as microseconds-since-epoch
(`Nat`), so that `timedelta.days`, `timedelta.seconds` and
`timedelta.microseconds` become `delta / usPerDay`,
`(delta % usPerDay) / usPerSecond` and `delta % usPerSecond`.
The GitHub client is abstracted as a record of the observations the
orchestrator makes (the data its calls return), mirroring the collaborator
interface the Python code talks to.
-/

/-! Embeddings from src/grading/penalty.py -/

/-- Strategy for calculating penalty points (enum `PenaltyStrategy`). -/
inductive PenaltyStrategy
  | WEEKLY
  | IMMEDIATE_MAX
  | NONE
  | DAILY
deriving DecidableEq

/-- Microseconds in one day: the divisor producing `timedelta.days`. -/
def usPerDay : Nat := 86400000000

/-- Microseconds in one second: the divisor producing `timedelta.seconds`
from the sub-day remainder. -/
def usPerSecond : Nat := 1000000

/-- Embedding of `calculate_penalty` from penalty.py.  `completed_at` and `deadline` are
datetimes in microseconds since an epoch; `delta.days` is
`delta / usPerDay` and `delta.seconds` is `(delta % usPerDay) / usPerSecond`,
exactly as Python's `timedelta` normalises a positive delta. -/
def calculate_penalty (completed_at deadline : Nat) (penalty_max : Int)
    (strategy : PenaltyStrategy) : Int :=
  if completed_at ≤ deadline then 0
  else if strategy = PenaltyStrategy.NONE then 0
  else if strategy = PenaltyStrategy.IMMEDIATE_MAX then penalty_max
  else
    let delta := completed_at - deadline
    let days := delta / usPerDay
    let seconds := (delta % usPerDay) / usPerSecond
    if strategy = PenaltyStrategy.DAILY then
      min ((days : Int) + (if 0 < seconds then 1 else 0)) penalty_max
    else
      min (((days / 7 : Nat) : Int) + (if 0 < days % 7 ∨ 0 < seconds then 1 else 0)) penalty_max

/-- Embedding of `format_grade_with_penalty` from penalty.py. -/
def format_grade_with_penalty (base_grade : String) (penalty : Int) : String :=
  if penalty ≤ 0 then base_grade
  else base_grade ++ "-" ++ toString penalty

/-- Embedding of `PenaltyStrategy(strategy_name)` with the `except ValueError` fallback to
`WEEKLY` used by `LabGrader.grade`. -/
def PenaltyStrategy.ofName (s : String) : PenaltyStrategy :=
  if s = "weekly" then .WEEKLY
  else if s = "immediate" then .IMMEDIATE_MAX
  else if s = "none" then .NONE
  else if s = "daily" then .DAILY
  else .WEEKLY

/-! Embeddings from src/grading/taskid.py -/

/-- Result of TASKID extraction from logs (`TaskIdResult`). -/
structure TaskIdResult where
  found : Option Nat
  error : Option String := none
deriving DecidableEq

/-- Python's `\s` character class (ASCII part), also the set `str.strip`
removes. -/
def isPySpace (c : Char) : Bool :=
  c = ' ' || c = '\t' || c = '\n' || c = '\x0d' || c = '\x0b' || c = '\x0c'

/-- Numeric value of a matched digit group, as `int(m)` computes it. -/
def digitsToNat (ds : List Char) : Nat :=
  ds.foldl (fun a c => 10 * a + (c.toNat - 48)) 0

/-- Case-insensitive literal match (the effect of `re.IGNORECASE` on the
literal fragments of the pattern); returns the remaining input on success. -/
def matchCI : List Char → List Char → Option (List Char)
  | [], cs => some cs
  | _ :: _, [] => none
  | p :: ps, c :: cs => if p.toLower = c.toLower then matchCI ps cs else none

/-- One attempt of the regex `TASKID\s+is\s+(\d+)` at the head of the input
(greedy `\s+` and `\d+`; no backtracking is ever needed because the
characters after each greedy class cannot belong to it).  On success returns
the captured number and the input after the whole match. -/
def matchTaskidAt (cs : List Char) : Option (Nat × List Char) :=
  match matchCI "TASKID".toList cs with
  | none => none
  | some r1 =>
    if (r1.takeWhile isPySpace).isEmpty then none
    else
      match matchCI "is".toList (r1.dropWhile isPySpace) with
      | none => none
      | some r2 =>
        if (r2.takeWhile isPySpace).isEmpty then none
        else
          let r3 := r2.dropWhile isPySpace
          let digits := r3.takeWhile Char.isDigit
          if digits.isEmpty then none
          else some (digitsToNat digits, r3.dropWhile Char.isDigit)

/-- Scanning as `re.findall` does: try the pattern at every position, left to right,
resuming after the end of each non-overlapping match.  The fuel argument is
initialised with the input length; a failed attempt consumes one character
and one unit of fuel, and a successful match consumes at least one character,
so the fuel never runs out before the input does. -/
def findAllAux : Nat → List Char → List Nat
  | 0, _ => []
  | _ + 1, [] => []
  | fuel + 1, c :: rest =>
    match matchTaskidAt (c :: rest) with
    | some (n, rest2) => n :: findAllAux fuel rest2
    | none => findAllAux fuel rest

/-- All matches of `re.findall(r'TASKID\s+is\s+(\d+)', logs, re.IGNORECASE)`,
as numbers. -/
def findAllTaskids (cs : List Char) : List Nat :=
  findAllAux cs.length cs

/-- Insert into a sorted list (ascending). -/
def insertSorted (n : Nat) : List Nat → List Nat
  | [] => [n]
  | m :: ms => if n ≤ m then n :: m :: ms else m :: insertSorted n ms

/-- Ascending sort, modelling Python's `sorted`. -/
def sortNat (l : List Nat) : List Nat :=
  l.foldr insertSorted []

/-- Embedding of `extract_taskid_from_logs` from taskid.py. -/
def extract_taskid_from_logs (logs : String) : TaskIdResult :=
  if logs = "" then { found := none, error := some "Логи пусты" }
  else
    let allMatches := findAllTaskids logs.toList
    if allMatches.length = 0 then
      { found := none, error := some "TASKID не найден в логах" }
    else
      let unique_ids := allMatches.eraseDups
      if 1 < unique_ids.length then
        let ids := toString (sortNat unique_ids)
        { found := none,
          error := some s!"Найдено несколько разных TASKID в логах: {ids}. Обратитесь к преподавателю." }
      else
        { found := some (allMatches.headD 0) }

/-- Embedding of `calculate_expected_taskid` from taskid.py; the `raise ValueError` is
modelled as `Except.error`. -/
def calculate_expected_taskid (student_order taskid_shift taskid_max : Int) :
    Except String Int :=
  if taskid_max ≤ 0 then
    .error s!"taskid_max must be positive, got {taskid_max}"
  else
    let result := (student_order + taskid_shift) % taskid_max
    .ok (if result = 0 then taskid_max else result)

/-- Embedding of `validate_taskid` from taskid.py. -/
def validate_taskid (found_taskid expected_taskid : Nat) : Bool × Option String :=
  if found_taskid = expected_taskid then (true, none)
  else (false, some s!"Неверный вариант: найден {found_taskid}, ожидается {expected_taskid}")

/-! Embeddings from src/grading/ci_checker.py -/

/-- One CI check run (`CheckRun`); `completed_at` is a datetime in
microseconds since an epoch. -/
structure CheckRun where
  name : String
  conclusion : Option String
  html_url : String
  completed_at : Option Nat := none
deriving DecidableEq

/-- Aggregated result of CI checks (`CIResult`). -/
structure CIResult where
  passed : Bool
  passed_count : Nat
  total_count : Nat
  summary : List String := []
  latest_success_time : Option Nat := none
  has_pending : Bool := false
deriving DecidableEq

/-- Embedding of `DEFAULT_JOB_NAMES` from ci_checker.py. -/
def DEFAULT_JOB_NAMES : List String :=
  ["run-autograding-tests", "test", "build", "Autograding", "autograding"]

/-- Embedding of `filter_relevant_jobs` from ci_checker.py. -/
def filter_relevant_jobs (check_runs : List CheckRun)
    (configured_jobs : Option (List String)) : List CheckRun :=
  match configured_jobs with
  | some jobs => check_runs.filter (fun run => jobs.contains run.name)
  | none =>
    let default_matches := check_runs.filter (fun run => DEFAULT_JOB_NAMES.contains run.name)
    if default_matches.isEmpty then check_runs else default_matches

/-- The loop state of `evaluate_ci_results`: its four mutable accumulators. -/
structure CIScanState where
  passed_count : Nat
  latest_success : Option Nat
  has_pending : Bool
  summary : List String
deriving DecidableEq

/-- One summary line `f"{emoji} {run.name} — {run.html_url}"`. -/
def summaryLine (emoji : String) (run : CheckRun) : String :=
  emoji ++ " " ++ run.name ++ " — " ++ run.html_url

/-- One iteration of the `for run in check_runs` loop of
`evaluate_ci_results`. -/
def ciStep (st : CIScanState) (run : CheckRun) : CIScanState :=
  if run.conclusion = some "success" then
    let latest :=
      match run.completed_at, st.latest_success with
      | none, l => l
      | some t, none => some t
      | some t, some l => if l < t then some t else some l
    { st with passed_count := st.passed_count + 1, latest_success := latest,
              summary := st.summary ++ [summaryLine "✅" run] }
  else if run.conclusion = some "failure" then
    { st with summary := st.summary ++ [summaryLine "❌" run] }
  else
    { st with has_pending := true, summary := st.summary ++ [summaryLine "⏳" run] }

/-- Embedding of `evaluate_ci_results` from ci_checker.py. -/
def evaluate_ci_results (check_runs : List CheckRun) : CIResult :=
  if check_runs.isEmpty then
    { passed := false, passed_count := 0, total_count := 0, summary := [],
      latest_success_time := none, has_pending := true }
  else
    let st := check_runs.foldl ciStep { passed_count := 0, latest_success := none,
                                        has_pending := false, summary := [] }
    { passed := st.passed_count == check_runs.length && !st.has_pending,
      passed_count := st.passed_count,
      total_count := check_runs.length,
      summary := st.summary,
      latest_success_time := st.latest_success,
      has_pending := st.has_pending }

/-- Embedding of `format_ci_result_string` from ci_checker.py. -/
def format_ci_result_string (passed_count total_count : Nat) : String :=
  s!"{passed_count}/{total_count} тестов пройдено"

/-! Embeddings from src/grading/sheets_client.py -/

/-- Python `str.strip()` (ASCII whitespace; the model does not cover the
non-ASCII Unicode spaces, which none of the grade tokens contain). -/
def pyStrip (s : String) : String :=
  String.mk (((s.toList.dropWhile isPySpace).reverse.dropWhile isPySpace).reverse)

/-- Python `str.startswith`, via character lists (kept away from `String`'s
position-based primitives so that proofs can evaluate it). -/
def pyStartsWith (s p : String) : Bool :=
  p.toList.isPrefixOf s.toList

/-- Embedding of `OVERWRITABLE_VALUES` from sheets_client.py (the Python `set` as a list). -/
def OVERWRITABLE_VALUES : List String := ["", "x", "?"]

/-- Embedding of `OVERWRITABLE_PREFIXES` from sheets_client.py. -/
def OVERWRITABLE_PREFIXES : List String := ["?"]

/-- Embedding of `can_overwrite_cell` from sheets_client.py. -/
def can_overwrite_cell (current_value : String) : Bool :=
  if current_value = "" then true
  else
    let value_stripped := pyStrip current_value
    if OVERWRITABLE_VALUES.contains value_stripped then true
    else if OVERWRITABLE_PREFIXES.any (fun p => pyStartsWith value_stripped p) then true
    else false

/-! Embeddings from src/grading/github_client.py (pure part) -/

/-- Embedding of `check_forbidden_files_in_list` from github_client.py: a flat path list,
no status filtering; a path violates if it equals a pattern or starts with
it. -/
def check_forbidden_files_in_list (all_files forbidden_patterns : List String) :
    List String :=
  all_files.filter (fun filename =>
    forbidden_patterns.any (fun pattern =>
      filename == pattern || pyStartsWith filename pattern))

/-! Embeddings from src/grading/grader.py -/

/-- Possible grading outcomes (`GradeStatus`). -/
inductive GradeStatus
  | updated
  | rejected
  | pending
  | error
deriving DecidableEq

/-- Result of a grading operation (`GradeResult`). -/
structure GradeResult where
  status : GradeStatus
  result : Option String
  message : String
  passed : Option String
  checks : List String := []
  current_grade : Option String := none
  error_code : Option String := none
deriving DecidableEq

/-- Internal result of CI evaluation with full details (`CIEvaluation`). -/
structure CIEvaluation where
  grade_result : GradeResult
  ci_passed : Bool
  successful_runs : List CheckRun := []
  latest_success_time : Option Nat := none
deriving DecidableEq

/-- Warning about forbidden file modifications (`ForbiddenFilesWarning`). -/
structure ForbiddenFilesWarning where
  violations : List String
  message : String
deriving DecidableEq

/-- The observations `LabGrader` makes through its `GitHubClient` for one
fixed `org`/`repo_name`: each field is the return value of the corresponding
client call.  `missingRequired` stands for `check_required_files`,
`hasWorkflows` for `has_workflows_directory`, `hasCommit` for
`get_latest_commit` succeeding, `checkRuns` for `get_check_runs` on the
latest commit (already parsed by `parse_check_runs`, whose raw-JSON decoding
is outside this model), `allModified` for `get_all_modified_files`, and
`jobLogs` for `get_job_logs`. -/
structure Github where
  missingRequired : List String → List String
  hasWorkflows : Bool
  hasCommit : Bool
  checkRuns : Option (List CheckRun)
  allModified : List String
  jobLogs : Nat → Option String

/-- The fields of the lab-config dict that `LabGrader` reads, with the
defaults it supplies at each `.get`; `ci_jobs` is the value
`get_ci_config_jobs` returns for the config (never `some []` in Python,
since that helper only returns a non-empty list or `None`).  The
`github-prefix` key is omitted: it only builds the repository name, which is
already fixed inside `Github`. -/
structure LabConfig where
  files : List String := []
  forbidden_files : List String := []
  ci_jobs : Option (List String) := none
  ignore_task_id : Bool := false
  penalty_max : Int := 0
  penalty_strategy : String := "weekly"

/-- Embedding of `LabGrader.check_repository`. -/
def check_repository (gh : Github) (cfg : LabConfig) : Option GradeResult :=
  let missing := if cfg.files.isEmpty then [] else gh.missingRequired cfg.files
  if missing.isEmpty = false then
    some { status := .error, result := none,
           message := "⚠️ Файл " ++ missing.headD "" ++ " не найден в репозитории",
           passed := none, error_code := some "MISSING_FILES" }
  else if gh.hasWorkflows = false then
    some { status := .error, result := none,
           message := "⚠️ Папка .github/workflows не найдена. CI не настроен",
           passed := none, error_code := some "NO_WORKFLOWS" }
  else if gh.hasCommit = false then
    some { status := .error, result := none,
           message := "Нет коммитов в репозитории",
           passed := none, error_code := some "NO_COMMITS" }
  else none

/-- The warning message built by `LabGrader.check_forbidden_files`. -/
def forbiddenMessage (violations : List String) : String :=
  if violations.length = 1 then
    "⚠️ Обнаружено изменение запрещённого файла: " ++ violations.headD ""
  else
    let files_str := String.intercalate ", " (violations.take 3)
    let files_str := if 3 < violations.length then
        files_str ++ s!" и ещё {violations.length - 3}"
      else files_str
    "⚠️ Обнаружены изменения запрещённых файлов: " ++ files_str

/-- Embedding of `LabGrader.check_forbidden_files`. -/
def check_forbidden_files (gh : Github) (cfg : LabConfig) :
    Option ForbiddenFilesWarning :=
  let forbidden := cfg.forbidden_files
  if forbidden.isEmpty then none
  else
    let all_modified := gh.allModified
    if all_modified.isEmpty then none
    else
      let violations := check_forbidden_files_in_list all_modified forbidden
      if violations.isEmpty then none
      else some { violations := violations, message := forbiddenMessage violations }

/-- Python's `needle in haystack` on strings, as lists of characters. -/
def pyIn (needle hay : List Char) : Bool :=
  hay.tails.any (fun t => needle.isPrefixOf t)

/-- Python `str.split(sep)` for a non-empty separator: left-to-right,
non-overlapping.  The fuel starts above the input length and every step
consumes at least one character, so it never runs out. -/
def pySplitAux (sep : List Char) : Nat → List Char → List Char → List (List Char)
  | 0, acc, _ => [acc.reverse]
  | _ + 1, acc, [] => [acc.reverse]
  | fuel + 1, acc, c :: cs =>
    if sep.isPrefixOf (c :: cs) then
      acc.reverse :: pySplitAux sep fuel [] ((c :: cs).drop sep.length)
    else
      pySplitAux sep fuel (c :: acc) cs

/-- Python `str.split(sep)` on strings. -/
def pySplit (s sep : String) : List String :=
  (pySplitAux sep.toList (s.toList.length + 1) [] s.toList).map String.mk

/-- Python `int(s)` as used on the job-id fragment of a URL: succeeds on a
non-empty all-digit string, fails otherwise (the sign/whitespace forms
`int` also accepts cannot occur in a URL path fragment). -/
def pyToNat (s : String) : Option Nat :=
  if s.toList.isEmpty then none
  else if s.toList.all Char.isDigit then some (digitsToNat s.toList)
  else none

/-- The `for run in successful_runs` loop of `LabGrader.check_taskid`: the
final values of its `taskid_found` / `taskid_error` accumulators.  A run is
skipped (scan continues) when its URL has no `/job/`, the job id does not
parse, the logs are absent or empty, or extraction reports a not-found
error; a found value or a "несколько" (multiple-different-values) error
stops the loop. -/
def taskidScan (getLogs : Nat → Option String) :
    List CheckRun → Option Nat × Option String
  | [] => (none, none)
  | run :: rest =>
    if pyIn "/job/".toList run.html_url.toList then
      match pyToNat (((pySplit ((pySplit run.html_url "/job/").getLastD "") "?")).headD "") with
      | none => taskidScan getLogs rest
      | some job_id =>
        match getLogs job_id with
        | none => taskidScan getLogs rest
        | some logs =>
          if logs = "" then taskidScan getLogs rest
          else
            let result := extract_taskid_from_logs logs
            match result.found with
            | some v => (some v, none)
            | none =>
              match result.error with
              | some e =>
                if pyIn "несколько".toList e.toList then (none, some e)
                else taskidScan getLogs rest
              | none => taskidScan getLogs rest
    else taskidScan getLogs rest

/-- Embedding of `LabGrader.check_taskid`. -/
def check_taskid (getLogs : Nat → Option String) (successful_runs : List CheckRun)
    (expected_taskid : Nat) : Option GradeResult :=
  let scanned := taskidScan getLogs successful_runs
  match scanned.2 with
  | some taskid_error =>
    some { status := .error, result := none,
           message := "⚠️ " ++ taskid_error, passed := none,
           error_code := some "MULTIPLE_TASKIDS" }
  | none =>
    match scanned.1 with
    | none =>
      some { status := .error, result := some "?! Wrong TASKID!",
             message := "⚠️ TASKID не найден в логах. Убедитесь, что программа выводит номер варианта.",
             passed := none, error_code := some "TASKID_NOT_FOUND" }
    | some taskid_found =>
      let validated := validate_taskid taskid_found expected_taskid
      if validated.1 then none
      else
        some { status := .error, result := some "?! Wrong TASKID!",
               message := "⚠️ " ++ (validated.2.getD "") ++ ". Вы выполнили чужой вариант!",
               passed := none, error_code := some "WRONG_TASKID" }

/-- Embedding of `LabGrader._evaluate_ci_internal`. -/
def evaluate_ci_internal (gh : Github) (cfg : LabConfig) : CIEvaluation :=
  if gh.hasCommit = false then
    { grade_result := { status := .error, result := none,
                        message := "Нет коммитов в репозитории", passed := none },
      ci_passed := false }
  else
    match gh.checkRuns with
    | none =>
      { grade_result := { status := .error, result := none,
                          message := "Проверки CI не найдены", passed := none },
        ci_passed := false }
    | some check_runs_data =>
      if check_runs_data.isEmpty then
        { grade_result := { status := .pending, result := none,
                            message := "Нет активных CI-проверок ⏳", passed := none },
          ci_passed := false }
      else
        let relevant_runs := filter_relevant_jobs check_runs_data cfg.ci_jobs
        if relevant_runs.isEmpty then
          { grade_result := { status := .pending, result := none,
                              message := "Нет активных CI-проверок ⏳", passed := none },
            ci_passed := false }
        else
          let ci_result := evaluate_ci_results relevant_runs
          if ci_result.has_pending then
            { grade_result := { status := .pending, result := none,
                                message := "CI-проверки ещё выполняются ⏳",
                                passed := some (format_ci_result_string ci_result.passed_count ci_result.total_count),
                                checks := ci_result.summary },
              ci_passed := false }
          else
            let successful_runs := relevant_runs.filter (fun run => run.conclusion == some "success")
            let final_result := if ci_result.passed then "v" else "x"
            let message := if ci_result.passed then "Результат CI: ✅ Все проверки пройдены"
              else "Результат CI: ❌ Обнаружены ошибки"
            { grade_result := { status := .updated, result := some final_result,
                                message := message,
                                passed := some (format_ci_result_string ci_result.passed_count ci_result.total_count),
                                checks := ci_result.summary },
              ci_passed := ci_result.passed,
              successful_runs := successful_runs,
              latest_success_time := ci_result.latest_success_time }

/-- What `LabGrader.grade` actually returns: despite its `GradeResult`
annotation, the Python method returns the `ForbiddenFilesWarning` object
itself when the forbidden-files check reports a violation. -/
inductive GradeReturn
  | res : GradeResult → GradeReturn
  | warn : ForbiddenFilesWarning → GradeReturn
deriving DecidableEq

/-- Embedding of `LabGrader.grade` (named with the class to avoid clashing with Mathlib's
`grade`). -/
def LabGrader.grade (gh : Github) (cfg : LabConfig) (current_cell_value : Option String)
    (deadline : Option Nat) (expected_taskid : Option Nat) : GradeReturn :=
  match check_repository gh cfg with
  | some repo_error => .res repo_error
  | none =>
    match check_forbidden_files gh cfg with
    | some forbidden_error => .warn forbidden_error
    | none =>
      let ci_evaluation := evaluate_ci_internal gh cfg
      if ci_evaluation.grade_result.status ≠ .updated then .res ci_evaluation.grade_result
      else if ci_evaluation.ci_passed = false then .res ci_evaluation.grade_result
      else
        let taskid_error : Option GradeResult :=
          match expected_taskid with
          | none => none
          | some e =>
            if cfg.ignore_task_id then none
            else check_taskid gh.jobLogs ci_evaluation.successful_runs e
        match taskid_error with
        | some te => .res te
        | none =>
          let strategy := PenaltyStrategy.ofName cfg.penalty_strategy
          let penalty : Int :=
            match deadline, ci_evaluation.latest_success_time with
            | some d, some t => calculate_penalty t d cfg.penalty_max strategy
            | _, _ => 0
          let final_result := if 0 < penalty then format_grade_with_penalty "v" penalty else "v"
          let final_message :=
            if 0 < penalty then
              "Результат CI: ✅ Все проверки пройдены (штраф: -" ++ toString penalty ++ ")"
            else ci_evaluation.grade_result.message
          let ok_result : GradeResult :=
            { status := .updated, result := some final_result, message := final_message,
              passed := ci_evaluation.grade_result.passed,
              checks := ci_evaluation.grade_result.checks }
          match current_cell_value with
          | some cv =>
            if can_overwrite_cell cv = false then
              .res { status := .rejected, result := some cv,
                     message := "⚠️ Работа уже была проверена ранее. Обратитесь к преподавателю для пересдачи.",
                     passed := ci_evaluation.grade_result.passed,
                     checks := ci_evaluation.grade_result.checks,
                     current_grade := some cv }
            else .res ok_result
          | none => .res ok_result

/-! Arithmetic helpers for the penalty calculator -/

/-- Division-based round-up: adding one whenever the remainder reaches `M`
is the same as shifting the dividend by `D - M`. -/
theorem roundUpDiv (D M n : Nat) (hM : 0 < M) (hMD : M ≤ D) :
    n / D + (if M ≤ n % D then 1 else 0) = (n + (D - M)) / D := by
  have hD : 0 < D := lt_of_lt_of_le hM hMD
  conv_rhs => rw [← Nat.div_add_mod n D]
  rw [Nat.add_assoc, Nat.mul_add_div hD]
  congr 1
  have hr : n % D < D := Nat.mod_lt n hD
  by_cases h : M ≤ n % D
  · rw [if_pos h]
    exact (Nat.div_eq_of_lt_le (by omega) (by omega)).symm
  · rw [if_neg h]
    exact (Nat.div_eq_of_lt (by omega)).symm

/-- The daily counter of `calculate_penalty`, in closed form. -/
theorem dailyCount_eq (delta : Nat) :
    delta / usPerDay + (if 0 < (delta % usPerDay) / usPerSecond then 1 else 0)
      = (delta + (usPerDay - usPerSecond)) / usPerDay := by
  have h := roundUpDiv usPerDay usPerSecond delta (by norm_num [usPerSecond])
    (by norm_num [usPerDay, usPerSecond])
  rw [← h]
  congr 1
  exact if_congr (Nat.div_pos_iff (by norm_num [usPerSecond])) rfl rfl

/-- The weekly counter of `calculate_penalty`, in closed form. -/
theorem weeklyCount_eq (delta : Nat) :
    delta / usPerDay / 7 +
        (if 0 < delta / usPerDay % 7 ∨ 0 < (delta % usPerDay) / usPerSecond then 1 else 0)
      = (delta + (usPerDay * 7 - usPerSecond)) / (usPerDay * 7) := by
  have h := roundUpDiv (usPerDay * 7) usPerSecond delta (by norm_num [usPerSecond])
    (by norm_num [usPerDay, usPerSecond])
  rw [← h, Nat.div_div_eq_div_mul]
  congr 1
  refine if_congr ?_ rfl rfl
  have hmm : delta % (usPerDay * 7) = delta % usPerDay + usPerDay * (delta / usPerDay % 7) :=
    Nat.mod_mul
  rw [Nat.div_pos_iff (by norm_num [usPerSecond] : usPerSecond ≠ 0), hmm]
  have hMD : usPerSecond ≤ usPerDay := by norm_num [usPerDay, usPerSecond]
  constructor
  · rintro (hb | ha)
    · have h1 : usPerDay * 1 ≤ usPerDay * (delta / usPerDay % 7) :=
        Nat.mul_le_mul_left usPerDay hb
      omega
    · omega
  · intro h
    by_cases hb : 0 < delta / usPerDay % 7
    · exact Or.inl hb
    · right
      have hb0 : delta / usPerDay % 7 = 0 := by omega
      rw [hb0] at h
      omega

/-- The `Int`-valued daily expression inside `calculate_penalty` is the cast
of its `Nat` counter. -/
theorem dailyInt_eq (delta : Nat) :
    ((delta / usPerDay : Nat) : Int) + (if 0 < (delta % usPerDay) / usPerSecond then (1 : Int) else 0)
      = (((delta + (usPerDay - usPerSecond)) / usPerDay : Nat) : Int) := by
  rw [← dailyCount_eq]
  split <;> push_cast <;> ring

/-- The `Int`-valued weekly expression inside `calculate_penalty` is the cast
of its `Nat` counter. -/
theorem weeklyInt_eq (delta : Nat) :
    ((delta / usPerDay / 7 : Nat) : Int) +
        (if 0 < delta / usPerDay % 7 ∨ 0 < (delta % usPerDay) / usPerSecond then (1 : Int) else 0)
      = (((delta + (usPerDay * 7 - usPerSecond)) / (usPerDay * 7) : Nat) : Int) := by
  rw [← weeklyCount_eq]
  split <;> push_cast <;> ring

/-- With a non-negative cap, `calculate_penalty` is never negative. -/
theorem calculate_penalty_nonneg (t d : Nat) (cap : Int) (strat : PenaltyStrategy)
    (hcap : 0 ≤ cap) : 0 ≤ calculate_penalty t d cap strat := by
  unfold calculate_penalty
  split
  · exact le_rfl
  split
  · exact le_rfl
  split
  · exact hcap
  split
  · refine le_min (add_nonneg (Int.ofNat_nonneg _) ?_) hcap
    split <;> norm_num
  · refine le_min (add_nonneg (Int.ofNat_nonneg _) ?_) hcap
    split <;> norm_num

/-- C3 (code_bug evidence): at `completed_at = deadline + 1 day + 1 µs` the
daily strategy returns 1, and at `deadline + 7 days + 1 µs` the weekly
strategy returns 1 — the claim (and the source's own comment "any part of a
day counts as a full day") requires 2 in both cases, but the code tests
`delta.seconds > 0`, which is blind to a microseconds-only remainder. -/
theorem C3_code_eval :
    calculate_penalty (usPerDay + 1) 0 10 PenaltyStrategy.DAILY = 1 ∧
    calculate_penalty (7 * usPerDay + 1) 0 10 PenaltyStrategy.WEEKLY = 1 := by
  constructor <;> decide

/-- C4 (amended): for every non-negative cap, `calculate_penalty` is at most
the cap for all inputs and strategies, and for a zero cap it is exactly 0.
(The original claim over all caps fails for negative caps, see the
counterexample.) -/
theorem C4_cap_theorem (t d : Nat) (cap : Int) (strat : PenaltyStrategy) :
    (0 ≤ cap → calculate_penalty t d cap strat ≤ cap) ∧
    (cap = 0 → calculate_penalty t d cap strat = 0) := by
  have hle : 0 ≤ cap → calculate_penalty t d cap strat ≤ cap := by
    intro hcap
    unfold calculate_penalty
    split
    · exact hcap
    split
    · exact hcap
    split
    · exact le_rfl
    split
    · exact min_le_right _ _
    · exact min_le_right _ _
  refine ⟨hle, ?_⟩
  intro h0
  subst h0
  exact le_antisymm (hle le_rfl) (calculate_penalty_nonneg t d 0 strat le_rfl)

/-- C4 (counterexample): with the negative cap `-1` the claimed bound
`calculate(...) ≤ cap` fails on an on-time submission (which yields 0), and
the claimed "cap ≤ 0 implies result 0" fails for the immediate-max strategy
(which returns the cap itself, here `-1`). -/
theorem C4_counterexample :
    ¬ (calculate_penalty 0 0 (-1) PenaltyStrategy.WEEKLY ≤ -1) ∧
    calculate_penalty 1 0 (-1) PenaltyStrategy.IMMEDIATE_MAX = -1 ∧
    (-1 : Int) ≠ 0 := by decide

/-- C4 (witness): the amended bound at concrete inputs. -/
theorem C4_witness :
    calculate_penalty (15 * usPerDay) 0 5 PenaltyStrategy.DAILY ≤ 5 ∧
    calculate_penalty 0 0 0 PenaltyStrategy.WEEKLY = 0 :=
  ⟨(C4_cap_theorem (15 * usPerDay) 0 5 PenaltyStrategy.DAILY).1 (by norm_num),
   (C4_cap_theorem 0 0 0 PenaltyStrategy.WEEKLY).2 rfl⟩

/-- C9 (amended): for a fixed deadline, a fixed non-negative cap and a fixed
strategy, `calculate_penalty` is monotone non-decreasing in `completed_at`,
and it returns 0 for every `completed_at ≤ deadline` regardless of strategy
and cap.  (The original claim without the cap restriction fails, see the
counterexample.) -/
theorem C9_monotonicity_theorem (deadline : Nat) (cap : Int) (strat : PenaltyStrategy) :
    (∀ t1 t2 : Nat, 0 ≤ cap → t1 ≤ t2 →
        calculate_penalty t1 deadline cap strat ≤ calculate_penalty t2 deadline cap strat) ∧
    (∀ t : Nat, t ≤ deadline → calculate_penalty t deadline cap strat = 0) := by
  constructor
  · intro t1 t2 hcap h12
    by_cases h1 : t1 ≤ deadline
    · have e1 : calculate_penalty t1 deadline cap strat = 0 := by
        simp [calculate_penalty, h1]
      rw [e1]
      exact calculate_penalty_nonneg t2 deadline cap strat hcap
    · have h2 : ¬ t2 ≤ deadline := fun h => h1 (le_trans h12 h)
      have hdle : t1 - deadline + (usPerDay - usPerSecond) ≤ t2 - deadline + (usPerDay - usPerSecond) :=
        Nat.add_le_add_right (Nat.sub_le_sub_right h12 deadline) _
      have hdlew : t1 - deadline + (usPerDay * 7 - usPerSecond) ≤ t2 - deadline + (usPerDay * 7 - usPerSecond) :=
        Nat.add_le_add_right (Nat.sub_le_sub_right h12 deadline) _
      cases strat with
      | NONE => simp [calculate_penalty, h1, h2]
      | IMMEDIATE_MAX => simp [calculate_penalty, h1, h2]
      | DAILY =>
        simp only [calculate_penalty, if_neg h1, if_neg h2, reduceIte]
        rw [dailyInt_eq, dailyInt_eq]
        exact min_le_min (Int.ofNat_le.mpr (Nat.div_le_div_right hdle)) le_rfl
      | WEEKLY =>
        simp only [calculate_penalty, if_neg h1, if_neg h2, reduceIte]
        rw [weeklyInt_eq, weeklyInt_eq]
        exact min_le_min (Int.ofNat_le.mpr (Nat.div_le_div_right hdlew)) le_rfl
  · intro t ht
    simp [calculate_penalty, ht]

/-- C9 (counterexample): with the negative cap `-1` and the immediate-max
strategy, the penalty drops from 0 (on time) to `-1` (one microsecond
late), so monotonicity fails as originally claimed. -/
theorem C9_counterexample :
    (0 : Nat) ≤ 1 ∧
    ¬ (calculate_penalty 0 0 (-1) PenaltyStrategy.IMMEDIATE_MAX ≤
        calculate_penalty 1 0 (-1) PenaltyStrategy.IMMEDIATE_MAX) := by decide

/-- C9 (witness): monotonicity and the on-time zero at concrete inputs. -/
theorem C9_witness :
    calculate_penalty (3 * usPerDay) 0 9 PenaltyStrategy.WEEKLY ≤
      calculate_penalty (10 * usPerDay) 0 9 PenaltyStrategy.WEEKLY ∧
    calculate_penalty 5 10 9 PenaltyStrategy.DAILY = 0 :=
  ⟨(C9_monotonicity_theorem 0 9 PenaltyStrategy.WEEKLY).1 (3 * usPerDay) (10 * usPerDay)
      (by norm_num) (by norm_num [usPerDay]),
   (C9_monotonicity_theorem 10 9 PenaltyStrategy.DAILY).2 5 (by norm_num)⟩

/-- C8: for every positive `taskid_max`, `calculate_expected_taskid` returns
`((student_order + taskid_shift) mod taskid_max)` with a zero mapped to
`taskid_max`, and the result always lies in `[1, taskid_max]`; for
`taskid_max ≤ 0` it fails fast with an error. -/
theorem C8_expected_taskid_theorem (o s m : Int) :
    (0 < m →
      calculate_expected_taskid o s m =
        Except.ok (if (o + s) % m = 0 then m else (o + s) % m) ∧
      (∀ r : Int, calculate_expected_taskid o s m = Except.ok r → 1 ≤ r ∧ r ≤ m)) ∧
    (m ≤ 0 → ∃ e, calculate_expected_taskid o s m = Except.error e) := by
  constructor
  · intro hm
    have hm2 : ¬ m ≤ 0 := not_le.mpr hm
    constructor
    · simp [calculate_expected_taskid, hm2]
    · intro r hr
      simp [calculate_expected_taskid, hm2] at hr
      have h0 : 0 ≤ (o + s) % m := Int.emod_nonneg _ (by omega)
      have hlt : (o + s) % m < m := Int.emod_lt_of_pos _ hm
      split at hr <;> omega
  · intro hm
    exact ⟨_, by unfold calculate_expected_taskid; rw [if_pos hm]⟩

/-- C8 (witness): the docstring examples of `calculate_expected_taskid`. -/
theorem C8_witness :
    calculate_expected_taskid 16 4 20 = Except.ok 20 ∧
    calculate_expected_taskid 5 4 20 = Except.ok 9 := by
  have h1 := ((C8_expected_taskid_theorem 16 4 20).1 (by norm_num)).1
  have h2 := ((C8_expected_taskid_theorem 5 4 20).1 (by norm_num)).1
  rw [h1, h2]
  constructor <;> norm_num

/-- C5: `evaluate_ci_results` satisfies `passed = true` iff
`passed_count = total_count` and no run is pending, and the empty input list
yields the distinguished pending case `passed = false`, `has_pending = true`,
`total_count = 0`. -/
theorem C5_ci_invariant_theorem (check_runs : List CheckRun) :
    ((evaluate_ci_results check_runs).passed = true ↔
      (evaluate_ci_results check_runs).passed_count = (evaluate_ci_results check_runs).total_count ∧
      (evaluate_ci_results check_runs).has_pending = false) ∧
    ((evaluate_ci_results ([] : List CheckRun)).passed = false ∧
     (evaluate_ci_results ([] : List CheckRun)).has_pending = true ∧
     (evaluate_ci_results ([] : List CheckRun)).total_count = 0) := by
  refine ⟨?_, by decide⟩
  match check_runs with
  | [] => simp [evaluate_ci_results]
  | r :: rs => simp [evaluate_ci_results]

/-- C6 (counterexample): `" x "` is overwritable for the code, yet it is not
empty, not whitespace-only, not exactly `"x"`, not exactly `"?"`, and does
not start with `"?"` — so the claim's characterisation fails on it. -/
theorem C6_counterexample :
    can_overwrite_cell " x " = true ∧
    (" x ").toList.all isPySpace = false ∧
    " x " ≠ "" ∧ " x " ≠ "x" ∧ " x " ≠ "?" ∧
    pyStartsWith " x " "?" = false := by decide

/-- C6 (amended): `can_overwrite_cell` returns true exactly for the values
whose whitespace-stripped form is empty (covering empty and whitespace-only
values), exactly `"x"`, exactly `"?"`, or starts with `"?"`; every other
value is protected. -/
theorem C6_overwrite_theorem (current_value : String) :
    can_overwrite_cell current_value = true ↔
      (pyStrip current_value = "" ∨ pyStrip current_value = "x" ∨
       pyStrip current_value = "?" ∨ pyStartsWith (pyStrip current_value) "?" = true) := by
  unfold can_overwrite_cell
  by_cases h : current_value = ""
  · subst h
    simp [show pyStrip "" = "" from rfl]
  · rw [if_neg h]
    by_cases hc : OVERWRITABLE_VALUES.contains (pyStrip current_value) = true
    · rw [if_pos hc]
      simp [OVERWRITABLE_VALUES] at hc
      simp
      tauto
    · rw [if_neg hc]
      by_cases hp : OVERWRITABLE_PREFIXES.any (fun p => pyStartsWith (pyStrip current_value) p) = true
      · rw [if_pos hp]
        simp [OVERWRITABLE_PREFIXES] at hp
        simp
        tauto
      · rw [if_neg hp]
        simp [OVERWRITABLE_VALUES] at hc
        simp [OVERWRITABLE_PREFIXES] at hp
        simp
        tauto

/-- C1 (amended): whenever the repository checks pass and the forbidden-files
check reports a violation, `LabGrader.grade` stops immediately and returns
the `ForbiddenFilesWarning` itself — CI evaluation, TASKID validation,
penalty and cell protection never execute (contrary to the claim, which
expected grading to proceed with the violation attached as a warning to the
eventual GradeResult). -/
theorem C1_forbidden_blocks_theorem (gh : Github) (cfg : LabConfig)
    (cv : Option String) (dl exp : Option Nat) (w : ForbiddenFilesWarning)
    (hrepo : check_repository gh cfg = none)
    (hforb : check_forbidden_files gh cfg = some w) :
    LabGrader.grade gh cfg cv dl exp = GradeReturn.warn w := by
  unfold LabGrader.grade
  rw [hrepo, hforb]

/-- C1 (counterexample): a healthy repository with passing CI but one
modified forbidden file makes `grade` return the warning object instead of a
`GradeResult` — grading does not proceed and nothing is attached to any
result. -/
theorem C1_counterexample :
    LabGrader.grade
      { missingRequired := fun _ => [], hasWorkflows := true, hasCommit := true,
        checkRuns := some [{ name := "test", conclusion := some "success", html_url := "u" }],
        allModified := ["test_main.py", "main.cpp"], jobLogs := fun _ => none }
      { forbidden_files := ["test_main.py"] } none none none
    = GradeReturn.warn
        { violations := ["test_main.py"],
          message := "⚠️ Обнаружено изменение запрещённого файла: test_main.py" } := by
  decide

/-- C1 (witness): the amended theorem applied at a concrete input, with a
protected current cell value that is never consulted. -/
theorem C1_witness :
    LabGrader.grade
      { missingRequired := fun _ => [], hasWorkflows := true, hasCommit := true,
        checkRuns := some [{ name := "test", conclusion := some "success", html_url := "u" }],
        allModified := ["tests/test1.py"], jobLogs := fun _ => none }
      { forbidden_files := ["tests/"] } (some "v") none none
    = GradeReturn.warn
        { violations := ["tests/test1.py"],
          message := "⚠️ Обнаружено изменение запрещённого файла: tests/test1.py" } :=
  C1_forbidden_blocks_theorem _ _ _ _ _ _ (by decide) (by decide)

/-! Loop invariants of `evaluate_ci_results` -/

/-- A run neither concluded `success` nor concluded `failure` (the pending
branch of the loop). -/
def isPendingRun (r : CheckRun) : Bool :=
  !(decide (r.conclusion = some "success")) && !(decide (r.conclusion = some "failure"))

/-- The `has_pending` accumulator after the loop. -/
theorem ciFold_pending (runs : List CheckRun) (st : CIScanState) :
    (runs.foldl ciStep st).has_pending = (st.has_pending || runs.any isPendingRun) := by
  induction runs generalizing st with
  | nil => simp
  | cons r rs ih =>
    rw [List.foldl_cons, List.any_cons, ih]
    unfold ciStep isPendingRun
    by_cases h1 : r.conclusion = some "success"
    · simp [h1]
    · by_cases h2 : r.conclusion = some "failure"
      · simp [h1, h2]
      · simp [h1, h2, Bool.or_comm, Bool.or_assoc, Bool.or_left_comm]

/-- The `passed_count` accumulator after the loop. -/
theorem ciFold_count (runs : List CheckRun) (st : CIScanState) :
    (runs.foldl ciStep st).passed_count =
      st.passed_count + runs.countP (fun r => decide (r.conclusion = some "success")) := by
  induction runs generalizing st with
  | nil => simp
  | cons r rs ih =>
    rw [List.foldl_cons, List.countP_cons, ih]
    unfold ciStep
    by_cases h1 : r.conclusion = some "success"
    · simp [h1]
      omega
    · by_cases h2 : r.conclusion = some "failure" <;> simp [h1, h2]

/-- Filtering an empty run list yields an empty list, for any configuration. -/
theorem filter_relevant_nil (c : Option (List String)) : filter_relevant_jobs [] c = [] := by
  cases c <;> rfl

/-- When `check_repository` finds nothing wrong, the repository has a commit. -/
theorem check_repository_none_commit (gh : Github) (cfg : LabConfig)
    (h : check_repository gh cfg = none) : gh.hasCommit = true := by
  by_cases hb : gh.hasCommit = true
  · exact hb
  · exfalso
    have hb2 : gh.hasCommit = false := by
      cases hbb : gh.hasCommit
      · rfl
      · exact absurd hbb hb
    simp only [check_repository, hb2] at h
    split_ifs at h

/-- C10: whenever the pipeline reaches CI evaluation with every relevant run
concluded (`success` or `failure`) and at least one `failure`, `grade`
returns the CI evaluation's `GradeResult` — `status = updated`,
`result = "x"` — immediately, for every `current_cell_value` (including
protected ones): the cell-protection step is never consulted on the
CI-failure path. -/
theorem C10_ci_failure_theorem (gh : Github) (cfg : LabConfig) (cv : Option String)
    (dl exp : Option Nat) (runs : List CheckRun)
    (hrepo : check_repository gh cfg = none)
    (hforb : check_forbidden_files gh cfg = none)
    (hruns : gh.checkRuns = some runs)
    (hconc : ∀ r ∈ filter_relevant_jobs runs cfg.ci_jobs,
        r.conclusion = some "success" ∨ r.conclusion = some "failure")
    (hfail : ∃ r ∈ filter_relevant_jobs runs cfg.ci_jobs, r.conclusion = some "failure") :
    LabGrader.grade gh cfg cv dl exp =
      GradeReturn.res ((evaluate_ci_internal gh cfg).grade_result) ∧
    (evaluate_ci_internal gh cfg).grade_result.status = GradeStatus.updated ∧
    (evaluate_ci_internal gh cfg).grade_result.result = some "x" := by
  obtain ⟨rf, hrfmem, hrfconc⟩ := hfail
  have hcommit : gh.hasCommit = true := check_repository_none_commit gh cfg hrepo
  have hrelne : (filter_relevant_jobs runs cfg.ci_jobs).isEmpty = false := by
    cases hrel : filter_relevant_jobs runs cfg.ci_jobs with
    | nil => rw [hrel] at hrfmem; exact absurd hrfmem (List.not_mem_nil rf)
    | cons a l => rfl
  have hrunsne : runs.isEmpty = false := by
    cases hr : runs with
    | nil =>
      rw [hr, filter_relevant_nil] at hrfmem
      exact absurd hrfmem (List.not_mem_nil rf)
    | cons a l => rfl
  have hpend : (evaluate_ci_results (filter_relevant_jobs runs cfg.ci_jobs)).has_pending = false := by
    simp only [evaluate_ci_results, hrelne, Bool.false_eq_true, if_false]
    rw [ciFold_pending]
    simp only [Bool.false_or]
    refine List.any_eq_false.mpr ?_
    intro r hr
    rcases hconc r hr with h | h <;> simp [isPendingRun, h]
  have hpassed : (evaluate_ci_results (filter_relevant_jobs runs cfg.ci_jobs)).passed = false := by
    simp only [evaluate_ci_results, hrelne, Bool.false_eq_true, if_false]
    rw [ciFold_count]
    simp only [Nat.zero_add]
    have hne : (filter_relevant_jobs runs cfg.ci_jobs).countP
        (fun r => decide (r.conclusion = some "success")) ≠
        (filter_relevant_jobs runs cfg.ci_jobs).length := by
      intro heq
      have hall := (List.countP_eq_length).mp heq rf hrfmem
      rw [hrfconc] at hall
      simp at hall
    simp [hne]
  have hst : (evaluate_ci_internal gh cfg).grade_result.status = GradeStatus.updated := by
    simp [evaluate_ci_internal, hcommit, hruns, hrunsne, hrelne, hpend]
  have hres : (evaluate_ci_internal gh cfg).grade_result.result = some "x" := by
    simp [evaluate_ci_internal, hcommit, hruns, hrunsne, hrelne, hpend, hpassed]
  have hcip : (evaluate_ci_internal gh cfg).ci_passed = false := by
    simp [evaluate_ci_internal, hcommit, hruns, hrunsne, hrelne, hpend, hpassed]
  refine ⟨?_, hst, hres⟩
  unfold LabGrader.grade
  rw [hrepo, hforb]
  simp [hst, hcip]

/-! Facts about the TASKID scanner -/

/-- A digit character is not whitespace. -/
theorem isDigit_not_space (c : Char) (h : c.isDigit = true) : isPySpace c = false := by
  by_contra hne
  have hs : isPySpace c = true := by
    cases hh : isPySpace c
    · exact absurd hh hne
    · rfl
  simp [isPySpace] at hs
  rcases hs with ((((h1 | h1) | h1) | h1) | h1) | h1 <;> subst h1 <;> revert h <;> decide

/-- Behaviour of `takeWhile` and `dropWhile` on an all-digit list. -/
theorem all_digits_facts (ds : List Char) (h : ds.all Char.isDigit = true) :
    ds.takeWhile Char.isDigit = ds ∧ ds.dropWhile Char.isDigit = [] ∧
    ds.dropWhile isPySpace = ds := by
  induction ds with
  | nil => simp
  | cons c t ih =>
    simp only [List.all_cons, Bool.and_eq_true] at h
    obtain ⟨hc, ht⟩ := h
    obtain ⟨h1, h2, h3⟩ := ih ht
    refine ⟨?_, ?_, ?_⟩
    · simp [List.takeWhile_cons, hc, h1]
    · simp [List.dropWhile_cons, hc, h2]
    · simp [List.dropWhile_cons, isDigit_not_space c hc]

/-- A failed attempt advances the scan by one character. -/
theorem findAllAux_fail (fuel : Nat) (c : Char) (rest : List Char)
    (h : matchTaskidAt (c :: rest) = none) :
    findAllAux (fuel + 1) (c :: rest) = findAllAux fuel rest := by
  simp only [findAllAux, h]

/-- A successful attempt emits the captured number and resumes after the
match. -/
theorem findAllAux_succeed (fuel : Nat) (c : Char) (rest rest2 : List Char) (n : Nat)
    (h : matchTaskidAt (c :: rest) = some (n, rest2)) :
    findAllAux (fuel + 1) (c :: rest) = n :: findAllAux fuel rest2 := by
  simp only [findAllAux, h]

/-- The scan of an exhausted input is over. -/
theorem findAllAux_nil (fuel : Nat) : findAllAux fuel [] = [] := by
  cases fuel <;> rfl

/-- For a non-empty log whose scan yields exactly one match, extraction
returns it. -/
theorem extract_eq_single (logs : String) (h : ¬ logs = "") (n : Nat)
    (hf : findAllTaskids logs.toList = [n]) :
    extract_taskid_from_logs logs = { found := some n, error := none } := by
  unfold extract_taskid_from_logs
  rw [if_neg h, hf]
  rfl

/-- C7 (amended): `extract_taskid_from_logs` matches the `TASKID is N`
marker case-insensitively wherever it occurs in the log text — no line or
timestamp anchoring is applied.  Here the marker appears mid-line, after a
non-timestamp character, and in mixed case, and still yields its value for
every non-empty digit string `ds`. -/
theorem C7_anywhere_theorem (ds : List Char) (hne : ds ≠ [])
    (hdig : ds.all Char.isDigit = true) :
    extract_taskid_from_logs (String.mk ("x tAsKiD iS ".toList ++ ds)) =
      { found := some (digitsToNat ds), error := none } := by
  obtain ⟨h1, h2, h3⟩ := all_digits_facts ds hdig
  have hdse : ds.isEmpty = false := by
    cases ds
    · exact absurd rfl hne
    · rfl
  have hsp : isPySpace ' ' = true := rfl
  have e2 : matchTaskidAt ("tAsKiD iS ".toList ++ ds) = some (digitsToNat ds, []) := by
    simp [matchTaskidAt, matchCI, List.takeWhile_cons, List.dropWhile_cons, hsp, h1, h2, h3, hdse]
  have e0 : matchTaskidAt ('x' :: ' ' :: ("tAsKiD iS ".toList ++ ds)) = none := rfl
  have e1 : matchTaskidAt (' ' :: ("tAsKiD iS ".toList ++ ds)) = none := rfl
  have hfind : findAllTaskids ("x tAsKiD iS ".toList ++ ds) = [digitsToNat ds] := by
    rw [findAllTaskids]
    rw [show ("x tAsKiD iS ".toList ++ ds) = 'x' :: ' ' :: ("tAsKiD iS ".toList ++ ds) from rfl]
    rw [show ('x' :: ' ' :: ("tAsKiD iS ".toList ++ ds)).length
        = (("tAsKiD iS ".toList ++ ds).length + 1) + 1 from rfl]
    rw [findAllAux_fail _ _ _ e0, findAllAux_fail _ _ _ e1]
    rw [show ("tAsKiD iS ".toList ++ ds) = 't' :: ("AsKiD iS ".toList ++ ds) from rfl] at e2 ⊢
    rw [show ('t' :: ("AsKiD iS ".toList ++ ds)).length
        = ("AsKiD iS ".toList ++ ds).length + 1 from rfl]
    rw [findAllAux_succeed _ _ _ _ _ e2, findAllAux_nil]
  have hne2 : ¬ (String.mk ("x tAsKiD iS ".toList ++ ds) = "") := by
    intro hcontra
    have := congrArg String.toList hcontra
    simp at this
  have htl : (String.mk ("x tAsKiD iS ".toList ++ ds)).toList
      = "x tAsKiD iS ".toList ++ ds := rfl
  refine extract_eq_single _ hne2 _ ?_
  rw [htl, hfind]

/-- C7 (counterexample): the marker sits mid-line with no CI timestamp
prefix at all, yet extraction matches it and returns 7 — so the claim that
such occurrences contribute no match is false. -/
theorem C7_counterexample :
    extract_taskid_from_logs "hello TASKID is 7 world" = { found := some 7, error := none } := by
  decide

/-- C7 (witness): the amended theorem at the concrete digit string "42". -/
theorem C7_witness :
    extract_taskid_from_logs (String.mk ("x tAsKiD iS ".toList ++ ['4', '2'])) =
      { found := some (digitsToNat ['4', '2']), error := none } ∧
    digitsToNat ['4', '2'] = 42 :=
  ⟨ C7_anywhere_theorem ['4', '2'] (by decide) (by decide), by decide⟩

/-- Concrete GitHub observations for the C10 witness: two relevant runs,
one success and one failure. -/
def ghWitness : Github :=
  { missingRequired := fun _ => [], hasWorkflows := true, hasCommit := true,
    checkRuns := some [{ name := "test", conclusion := some "success", html_url := "u" },
                       { name := "build", conclusion := some "failure", html_url := "u2" }],
    allModified := [], jobLogs := fun _ => none }

/-- C10 (witness): a failed CI run with a protected current cell value
`"v"` still yields `status = updated`, `result = "x"`. -/
theorem C10_witness :
    (evaluate_ci_internal ghWitness {}).grade_result.status = GradeStatus.updated ∧
    (evaluate_ci_internal ghWitness {}).grade_result.result = some "x" ∧
    LabGrader.grade ghWitness {} (some "v") none none =
      GradeReturn.res ((evaluate_ci_internal ghWitness {}).grade_result) := by
  have h := C10_ci_failure_theorem ghWitness {} (some "v") none none
      [{ name := "test", conclusion := some "success", html_url := "u" },
       { name := "build", conclusion := some "failure", html_url := "u2" }]
      (by decide) (by decide) rfl (by decide) (by decide)
  exact ⟨h.2.1, h.2.2, h.1⟩

/-- One step of the TASKID scan, for a head run whose URL carries a parseable
job id with non-empty logs: the outcome is decided by what extraction
returns on those logs. -/
theorem taskidScan_cons_eq (getLogs : Nat → Option String) (r : CheckRun)
    (rest : List CheckRun) (jid : Nat) (logs : String)
    (hurl : pyIn "/job/".toList r.html_url.toList = true)
    (hjid : pyToNat (((pySplit ((pySplit r.html_url "/job/").getLastD "") "?")).headD "") = some jid)
    (hlogs : getLogs jid = some logs) (hlne : ¬ logs = "") :
    taskidScan getLogs (r :: rest) =
      (match (extract_taskid_from_logs logs).found with
       | some v => (some v, none)
       | none =>
         match (extract_taskid_from_logs logs).error with
         | some e =>
           if pyIn "несколько".toList e.toList then (none, some e)
           else taskidScan getLogs rest
         | none => taskidScan getLogs rest) := by
  simp only [taskidScan, hurl, hjid, hlogs, hlne]
  rfl

/-- C2 (amended): in the orchestrated TASKID scan over successful runs, a
run whose logs yield a found value stops the scan with it; a run yielding a
multiple-different-values error aborts the scan with a hard error; a run
yielding any other extraction error (not found) lets the scan continue; and
the three terminal error results all have `status = error`, with the
wrong-variant sentinel as `result` for the not-found and mismatch cases but
`result = none` (not the sentinel) for the multiple-values case. -/
theorem C2_taskid_scan_theorem (getLogs : Nat → Option String) (r : CheckRun)
    (rest : List CheckRun) (exp jid : Nat) (logs : String)
    (hurl : pyIn "/job/".toList r.html_url.toList = true)
    (hjid : pyToNat (((pySplit ((pySplit r.html_url "/job/").getLastD "") "?")).headD "") = some jid)
    (hlogs : getLogs jid = some logs) (hlne : ¬ logs = "") :
    ((∀ v, (extract_taskid_from_logs logs).found = some v →
        taskidScan getLogs (r :: rest) = (some v, none)) ∧
     (∀ e, (extract_taskid_from_logs logs).found = none →
        (extract_taskid_from_logs logs).error = some e →
        (pyIn "несколько".toList e.toList = true →
            taskidScan getLogs (r :: rest) = (none, some e)) ∧
        (pyIn "несколько".toList e.toList = false →
            taskidScan getLogs (r :: rest) = taskidScan getLogs rest))) ∧
    ((∀ runs e, taskidScan getLogs runs = (none, some e) →
        check_taskid getLogs runs exp =
          some { status := .error, result := none, message := "⚠️ " ++ e,
                 passed := none, error_code := some "MULTIPLE_TASKIDS" }) ∧
     (∀ runs, taskidScan getLogs runs = (none, none) →
        check_taskid getLogs runs exp =
          some { status := .error, result := some "?! Wrong TASKID!",
                 message := "⚠️ TASKID не найден в логах. Убедитесь, что программа выводит номер варианта.",
                 passed := none, error_code := some "TASKID_NOT_FOUND" }) ∧
     (∀ runs f, taskidScan getLogs runs = (some f, none) → f ≠ exp →
        check_taskid getLogs runs exp =
          some { status := .error, result := some "?! Wrong TASKID!",
                 message := "⚠️ " ++ s!"Неверный вариант: найден {f}, ожидается {exp}" ++
                   ". Вы выполнили чужой вариант!",
                 passed := none, error_code := some "WRONG_TASKID" })) := by
  have hcons := taskidScan_cons_eq getLogs r rest jid logs hurl hjid hlogs hlne
  refine ⟨⟨?_, ?_⟩, ?_, ?_, ?_⟩
  · intro v hv
    rw [hcons, hv]
  · intro e hf he
    constructor
    · intro hin
      simp only [hcons, hf, he]
      rw [if_pos hin]
    · intro hout
      simp only [hcons, hf, he]
      rw [if_neg (by simpa using hout)]
  · intro runs e hscan
    simp only [check_taskid, hscan]
  · intro runs hscan
    simp only [check_taskid, hscan]
  · intro runs f hscan hne
    simp only [check_taskid, hscan, validate_taskid, hne]
    rfl

/-- Logs containing two different TASKID values, for the C2 counterexample. -/
def gLogsMulti : Nat → Option String :=
  fun _ => some "2024 TASKID is 1\n2025 TASKID is 2"

/-- A successful run whose URL carries job id 1. -/
def runJob1 : CheckRun :=
  { name := "test", conclusion := some "success", html_url := "https://g/job/1" }

/-- C2 (counterexample): a run yielding a multiple-different-values error
produces a terminal error whose `result` field is `none`, not the
wrong-variant sentinel token the claim requires. -/
theorem C2_counterexample :
    check_taskid gLogsMulti [runJob1] 5 =
      some { status := .error, result := none,
             message := "⚠️ Найдено несколько разных TASKID в логах: [1, 2]. Обратитесь к преподавателю.",
             passed := none, error_code := some "MULTIPLE_TASKIDS" } ∧
    (none : Option String) ≠ some "?! Wrong TASKID!" := by
  constructor
  · decide
  · decide

/-- Logs with the single value 5, for the C2 witness. -/
def gLogsFive : Nat → Option String :=
  fun _ => some "z TASKID is 5"

/-- C2 (witness): the scan stops at the first run with a found value, and a
mismatch against the expected value yields the sentinel error result. -/
theorem C2_witness :
    taskidScan gLogsFive [runJob1] = (some 5, none) ∧
    check_taskid gLogsFive [runJob1] 7 =
      some { status := .error, result := some "?! Wrong TASKID!",
             message := "⚠️ Неверный вариант: найден 5, ожидается 7. Вы выполнили чужой вариант!",
             passed := none, error_code := some "WRONG_TASKID" } := by
  have h := C2_taskid_scan_theorem gLogsFive runJob1 [] 7 1 "z TASKID is 5"
      (by decide) (by decide) rfl (by decide)
  have hscan := h.1.1 5 (by decide)
  refine ⟨hscan, ?_⟩
  rw [h.2.2.2 [runJob1] 5 hscan (by decide)]
  rfl
